import Mathlib

/-!
Verification of the data-resolution layer of scripts/generate-paper-figures.py.

The script reads a JSON manifest and a sqlite store of evaluation records,
aggregates per-condition cell means (query_cell_means), derives 2x2 factorial
effects (compute_2x2_effects), and falls back to hardcoded literals when the
manifest, the store, or any required cell is unavailable.  This file gives a
shallow embedding of that layer: Python floats become rationals, the sqlite
query becomes an explicit filter/group/aggregate over a list of records, the
JSON manifest becomes an inductive value with subscript lookups that can fail
with KeyError or TypeError exactly where Python would raise, and the two lazy
module-level handles become an explicit state record threaded through the
resolvers.  Floating-point square root, which only affects the sd field and
never the guards proved here, is abstracted as a function parameter.  The
exact-rational model reproduces the expression tree of the code; for the one
identity whose truth depends on rounding rather than on the expression tree,
a relational model of binary64 round-to-nearest-even is set up alongside it.
-/

namespace PaperFigs

/-- Python exceptions that the data layer of the script can raise:
KeyError from a missing dict key, TypeError from subscripting or iterating a
value of the wrong shape. -/
inductive PyErr where
  | keyError (k : String)
  | typeError
deriving DecidableEq, Repr

/-- JSON values as loaded by json.load: null, numbers, strings, arrays,
objects (dicts with string keys, insertion ordered). -/
inductive J where
  | null
  | num (q : ℚ)
  | str (s : String)
  | arr (xs : List J)
  | obj (fields : List (String × J))

/-- First value bound to a key in a JSON object field list, as Python dict
lookup (keys are unique in dicts built by json.load). -/
def lookupField : List (String × J) → String → Option J
  | [], _ => none
  | (k, v) :: rest, key => if k = key then some v else lookupField rest key

/-- Python subscript j[k] on a JSON value: on a dict it is the key lookup and
raises KeyError when the key is absent; on any other value it raises
TypeError. -/
def jget : J → String → Except PyErr J
  | J.obj fields, k =>
    match lookupField fields k with
    | some v => Except.ok v
    | none => Except.error (PyErr.keyError k)
  | _, _ => Except.error PyErr.typeError

/-- Python truthiness of a JSON value: None, 0, empty string, empty list and
empty dict are falsy, everything else is truthy. -/
def J.truthy : J → Bool
  | J.null => false
  | J.num q => decide (q ≠ 0)
  | J.str s => decide (s ≠ "")
  | J.arr xs => !xs.isEmpty
  | J.obj fields => !fields.isEmpty

/-- Coerce a JSON value expected to be a string (run identifiers, judge
filters, labels); anything else is treated as a TypeError at the boundary
where the script hands it to sqlite or string formatting. -/
def asStr : J → Except PyErr String
  | J.str s => Except.ok s
  | _ => Except.error PyErr.typeError

/-- Coerce a JSON value expected to be a list of strings (run_ids lists in the
manifest). -/
def asStrList : J → Except PyErr (List String)
  | J.arr xs => xs.mapM asStr
  | _ => Except.error PyErr.typeError

/-- One row of the evaluation_results table.  overall_score is nullable; the
suggestions column holds raw JSON text (or NULL). -/
structure EvalRecord where
  run_id : String
  profile_name : String
  judge_model : String
  overall_score : Option ℚ
  suggestions : Option String
deriving DecidableEq, Repr

/-- Contents of the sqlite store: the rows of evaluation_results. -/
abbrev DB := List EvalRecord

/-- Connection events observable during a run: the shared handle opened by
get_db, the private handle opened by figure6, and their closes. -/
inductive CEvent where
  | openShared
  | closeShared
  | openLocal
  | closeLocal
deriving DecidableEq, Repr

/-- The filesystem as the script sees it: contents of
config/paper-manifest.json (none when the file is absent) and of
data/evaluations.db (none when the file is absent). -/
structure FS where
  manifestFile : Option J
  dbFile : Option DB

/-- The module-level mutable state: the lazily cached parsed manifest
(_manifest), the lazily opened shared connection (_db, modelled as a snapshot
of the read-only store), and the log of connection events so far. -/
structure GState where
  manifestCache : Option J
  dbCache : Option DB
  log : List CEvent

/-- State at interpreter start: both handles unset, nothing opened. -/
def g0 : GState := { manifestCache := none, dbCache := none, log := [] }

/-- get_manifest: return the cached manifest if set, otherwise load it from
the file when the file exists; a missing file leaves the cache unset and
returns None. -/
def get_manifest (fs : FS) (g : GState) : Option J × GState :=
  match g.manifestCache with
  | some m => (some m, g)
  | none =>
    match fs.manifestFile with
    | some m => (some m, { g with manifestCache := some m })
    | none => (none, g)

/-- get_db: return the cached connection if open, otherwise open one when the
store file exists (logged as an openShared event); a missing file returns
None without opening anything. -/
def get_db (fs : FS) (g : GState) : Option DB × GState :=
  match g.dbCache with
  | some d => (some d, g)
  | none =>
    match fs.dbFile with
    | some d =>
      (some d, { g with dbCache := some d, log := g.log ++ [CEvent.openShared] })
    | none => (none, g)

/-- SQL LIKE matching on character lists, on explicit fuel: percent matches
any run of characters, underscore matches one character, anything else
matches itself.  Every step shortens the pattern or the text, so fuel
bounded below by their combined length never runs out. -/
def likeMatchF : ℕ → List Char → List Char → Bool
  | 0, _, _ => false
  | _ + 1, [], cs => cs.isEmpty
  | fuel + 1, '%' :: ps, [] => likeMatchF fuel ps []
  | fuel + 1, '%' :: ps, c :: cs =>
    likeMatchF fuel ps (c :: cs) || likeMatchF fuel ('%' :: ps) cs
  | _ + 1, '_' :: _, [] => false
  | fuel + 1, '_' :: ps, _ :: cs => likeMatchF fuel ps cs
  | _ + 1, _ :: _, [] => false
  | fuel + 1, p :: ps, c :: cs => p == c && likeMatchF fuel ps cs

/-- SQL LIKE with the fuel instantiated to a sufficient bound.  First
argument is the pattern, second the candidate text. -/
def likeMatch (ps cs : List Char) : Bool :=
  likeMatchF (ps.length + cs.length + 1) ps cs

/-- judge_model LIKE pattern, case-insensitive for ASCII as in sqlite. -/
def likeB (s pat : String) : Bool :=
  likeMatch (pat.toList.map Char.toLower) (s.toList.map Char.toLower)

/-- The WHERE clause of query_cell_means: run_id in the given set, judge_model
LIKE the filter, and a non-null overall_score. -/
def matchesFilter (run_ids : List String) (jf : String) (r : EvalRecord) : Bool :=
  run_ids.contains r.run_id && likeB r.judge_model jf && r.overall_score.isSome

/-- Rows surviving the WHERE clause. -/
def filteredRecords (db : DB) (run_ids : List String) (jf : String) : List EvalRecord :=
  (db : List EvalRecord).filter (matchesFilter run_ids jf)

/-- The GROUP BY keys: the distinct profile names among the filtered rows
(grouping order is immaterial to every property proved here). -/
def profileKeys (rs : List EvalRecord) : List String :=
  (rs.map (fun r => r.profile_name)).dedup

/-- The non-null scores of one group. -/
def groupScores (rs : List EvalRecord) (k : String) : List ℚ :=
  ((rs.filter (fun r => r.profile_name == k)).filterMap (fun r => r.overall_score))

/-- SQL AVG over a group (groups produced by GROUP BY are never empty). -/
def avg (xs : List ℚ) : ℚ := xs.sum / (xs.length : ℚ)

/-- The manual variance of the query:
AVG(overall_score * overall_score) - AVG(overall_score) * AVG(overall_score). -/
def groupVar (xs : List ℚ) : ℚ :=
  avg (xs.map (fun x => x * x)) - avg xs * avg xs

/-- The sd expression of query_cell_means:
(var ** 0.5) if var and var > 0 else 0.  A null variance is falsy, a zero
variance is falsy, and a negative variance fails the comparison, so all three
report 0; only a strictly positive variance reaches the square root, which is
abstracted as the sqrtFn parameter. -/
def sdOf (sqrtFn : ℚ → ℚ) : Option ℚ → ℚ
  | none => 0
  | some v => if v ≠ 0 ∧ 0 < v then sqrtFn v else 0

/-- One value of the mapping query_cell_means returns per profile: the dict
with the mean, n and sd keys.  The mean is optional so that the dicts handed
to compute_2x2_effects can also model a value lacking the mean key; the query
itself always fills it. -/
structure CellVal where
  mean : Option ℚ
  n : ℕ
  sd : ℚ
deriving DecidableEq, Repr

/-- The mapping from profile_name to mean/n/sd dicts, insertion ordered. -/
abbrev CellMeans := List (String × CellVal)

/-- Aggregates of one group of scores. -/
def aggOf (sqrtFn : ℚ → ℚ) (xs : List ℚ) : CellVal :=
  { mean := some (avg xs), n := xs.length, sd := sdOf sqrtFn (some (groupVar xs)) }

/-- The SELECT of query_cell_means as a pure function of the store snapshot:
filter, group by profile_name, aggregate each group. -/
def runQuery (sqrtFn : ℚ → ℚ) (db : DB) (run_ids : List String) (jf : String) : CellMeans :=
  let rs := filteredRecords db run_ids jf
  (profileKeys rs).map (fun k => (k, aggOf sqrtFn (groupScores rs k)))

/-- query_cell_means: get_db (opening lazily), return the empty mapping when
the store is absent, otherwise run the aggregation query. -/
def query_cell_means (sqrtFn : ℚ → ℚ) (fs : FS) (g : GState)
    (run_ids : List String) (jf : String) : CellMeans × GState :=
  match get_db fs g with
  | (none, g') => ([], g')
  | (some db, g') => (runQuery sqrtFn db run_ids jf, g')

/-- The means sub-dict of an effect bundle. -/
structure Means where
  bs : ℚ
  bm : ℚ
  rs : ℚ
  rm : ℚ
deriving DecidableEq, Repr

/-- The bundle compute_2x2_effects returns: recognition effect, architecture
effect, interaction, and the four cell means. -/
structure Effects where
  recog_effect : ℚ
  arch_effect : ℚ
  interaction : ℚ
  means : Means
deriving DecidableEq, Repr

/-- cell_means.get(key, \x7b\x7d).get(\x27mean\x27): the mean of a cell, or
None when the key is absent or its dict lacks a mean. -/
def getMeanVal (cm : CellMeans) (k : String) : Option ℚ :=
  match (cm : List (String × CellVal)).lookup k with
  | some v => v.mean
  | none => none

/-- compute_2x2_effects: when all four cell means are present, return the
bundle with
recog_effect = ((rs + rm) / 2) - ((bs + bm) / 2),
arch_effect = ((bm + rm) / 2) - ((bs + rs) / 2),
interaction = (rm - rs) - (bm - bs);
when any is None, return None. -/
def compute_2x2_effects (cm : CellMeans)
    (base_single base_multi recog_single recog_multi : String) : Option Effects :=
  match getMeanVal cm base_single, getMeanVal cm base_multi,
        getMeanVal cm recog_single, getMeanVal cm recog_multi with
  | some bs, some bm, some rs, some rm =>
    some { recog_effect := ((rs + rm) / 2) - ((bs + bm) / 2)
           arch_effect := ((bm + rm) / 2) - ((bs + rs) / 2)
           interaction := (rm - rs) - (bm - bs)
           means := { bs := bs, bm := bm, rs := rs, rm := rm } }
  | _, _, _, _ => none

/-- Round half to even on rationals, the rounding of the Python round
builtin. -/
def roundHalfEven (x : ℚ) : ℤ :=
  let f := Rat.floor x
  let r := x - (f : ℚ)
  if r < 1 / 2 then f
  else if 1 / 2 < r then f + 1
  else if f % 2 = 0 then f else f + 1

/-- round(x, 1) of the script. -/
def pyRound1 (x : ℚ) : ℚ := ((roundHalfEven (x * 10) : ℤ) : ℚ) / 10

/-- The four single-learner factorial cells used by figure4 and figure5. -/
def cell1_key : String := "cell_1_base_single_unified"

/-- Base multi-agent cell label. -/
def cell3_key : String := "cell_3_base_multi_unified"

/-- Recognition single-agent cell label. -/
def cell5_key : String := "cell_5_recog_single_unified"

/-- Recognition multi-agent cell label. -/
def cell7_key : String := "cell_7_recog_multi_unified"

/-- The expression manifest[figures][fid] if manifest else None shared by the
figure resolvers: None when no manifest was loaded or it is falsy, the
KeyError or TypeError Python would raise when the keys are missing, the entry
otherwise. -/
def fig_config_of (m : Option J) (fid : String) : Except PyErr (Option J) :=
  match m with
  | none => Except.ok none
  | some j =>
    if j.truthy then
      match jget j "figures" with
      | Except.error e => Except.error e
      | Except.ok fj =>
        match jget fj fid with
        | Except.error e => Except.error e
        | Except.ok cj => Except.ok (some cj)
    else Except.ok none

/-- The per-model keys of the figure4 loop, in iteration order. -/
def fig4_keys : List String := ["kimi", "nemotron", "deepseek", "glm", "haiku"]

/-- One appended entry of the figure4 loop: the model label, the summed N of
its cell means, and the rounded recognition effect and interaction. -/
structure ModelRow where
  label : String
  total_n : ℕ
  recog : ℚ
  interaction : ℚ
deriving DecidableEq, Repr

/-- What figure4 draws: either the data-driven rows or the hardcoded fallback
bundle. -/
inductive Fig4Data where
  | dataDriven (rows : List ModelRow)
  | fallback
deriving DecidableEq, Repr

/-- The for-else loop of figure4 over the model keys.  Each iteration looks
up the per-model config (KeyError when absent), queries the cell means,
breaks to the fallback when the mapping is empty or the 2x2 effects are
incomplete (both returned as ok none here), and otherwise appends a row.
Completing all iterations yields ok (some rows), the data-driven path. -/
def fig4_loop (sqrtFn : ℚ → ℚ) (db : DB) (cfg : J) :
    List String → Except PyErr (Option (List ModelRow))
  | [] => Except.ok (some [])
  | k :: ks =>
    match jget cfg "runs" with
    | Except.error e => Except.error e
    | Except.ok runsJ =>
    match jget runsJ k with
    | Except.error e => Except.error e
    | Except.ok cfgk =>
    match jget cfgk "run_ids" with
    | Except.error e => Except.error e
    | Except.ok idsJ =>
    match asStrList idsJ with
    | Except.error e => Except.error e
    | Except.ok run_ids =>
    match jget cfg "judge_filter" with
    | Except.error e => Except.error e
    | Except.ok jfJ =>
    match asStr jfJ with
    | Except.error e => Except.error e
    | Except.ok jf =>
      let cm := runQuery sqrtFn db run_ids jf
      if cm.isEmpty then Except.ok none
      else
        match compute_2x2_effects cm cell1_key cell3_key cell5_key cell7_key with
        | none => Except.ok none
        | some eff =>
          let total_n := ((cm : List (String × CellVal)).map (fun p => p.2.n)).sum
          match jget cfgk "label" with
          | Except.error e => Except.error e
          | Except.ok lJ =>
          match asStr lJ with
          | Except.error e => Except.error e
          | Except.ok label =>
            match fig4_loop sqrtFn db cfg ks with
            | Except.error e => Except.error e
            | Except.ok none => Except.ok none
            | Except.ok (some rows) =>
              Except.ok (some ({ label := label, total_n := total_n,
                                 recog := pyRound1 eff.recog_effect,
                                 interaction := pyRound1 eff.interaction } :: rows))

/-- The data resolution of figure4: fetch the manifest entry (raising as
Python would on a malformed manifest), fall back when it is absent or falsy,
otherwise open the store (fall back when absent) and run the per-model loop.
The loop re-queries through query_cell_means, whose inner get_db returns the
connection just opened by the guard, so it is applied to that snapshot. -/
def figure4_resolve (sqrtFn : ℚ → ℚ) (fs : FS) (g : GState) :
    Except PyErr (Fig4Data × GState) :=
  let mg := get_manifest fs g
  match fig_config_of mg.1 "figure4" with
  | Except.error e => Except.error e
  | Except.ok none => Except.ok (Fig4Data.fallback, mg.2)
  | Except.ok (some cfg) =>
    if cfg.truthy then
      let dg := get_db fs mg.2
      match dg.1 with
      | none => Except.ok (Fig4Data.fallback, dg.2)
      | some db =>
        match fig4_loop sqrtFn db cfg fig4_keys with
        | Except.error e => Except.error e
        | Except.ok none => Except.ok (Fig4Data.fallback, dg.2)
        | Except.ok (some rows) => Except.ok (Fig4Data.dataDriven rows, dg.2)
    else Except.ok (Fig4Data.fallback, mg.2)

/-- What figure5 draws: the rounded [recognition, architecture] effect pairs
for the philosophy and elementary runs with their Ns, or the fallback. -/
inductive Fig5Data where
  | dataDriven (phil elem : List ℚ) (phil_n elem_n : ℕ)
  | fallback
deriving DecidableEq, Repr

/-- The data resolution of figure5: manifest entry, store, one query per
domain, fallback when either mapping is empty or either 2x2 bundle is
incomplete.  The runs and judge_filter keys are read once per query, exactly
as the script re-evaluates them. -/
def figure5_resolve (sqrtFn : ℚ → ℚ) (fs : FS) (g : GState) :
    Except PyErr (Fig5Data × GState) :=
  let mg := get_manifest fs g
  match fig_config_of mg.1 "figure5" with
  | Except.error e => Except.error e
  | Except.ok none => Except.ok (Fig5Data.fallback, mg.2)
  | Except.ok (some cfg) =>
    if cfg.truthy then
      let dg := get_db fs mg.2
      match dg.1 with
      | none => Except.ok (Fig5Data.fallback, dg.2)
      | some db =>
        match jget cfg "runs" with
        | Except.error e => Except.error e
        | Except.ok runsJ =>
        match jget runsJ "philosophy" with
        | Except.error e => Except.error e
        | Except.ok pJ =>
        match asStr pJ with
        | Except.error e => Except.error e
        | Except.ok phil_run =>
        match jget cfg "judge_filter" with
        | Except.error e => Except.error e
        | Except.ok jfJ =>
        match asStr jfJ with
        | Except.error e => Except.error e
        | Except.ok jf =>
          let phil_means := runQuery sqrtFn db [phil_run] jf
          match jget cfg "runs" with
          | Except.error e => Except.error e
          | Except.ok runsJ2 =>
          match jget runsJ2 "elementary" with
          | Except.error e => Except.error e
          | Except.ok eJ =>
          match asStr eJ with
          | Except.error e => Except.error e
          | Except.ok elem_run =>
          match jget cfg "judge_filter" with
          | Except.error e => Except.error e
          | Except.ok jfJ2 =>
          match asStr jfJ2 with
          | Except.error e => Except.error e
          | Except.ok jf2 =>
            let elem_means := runQuery sqrtFn db [elem_run] jf2
            if phil_means.isEmpty || elem_means.isEmpty then
              Except.ok (Fig5Data.fallback, dg.2)
            else
              match compute_2x2_effects phil_means cell1_key cell3_key cell5_key cell7_key,
                    compute_2x2_effects elem_means cell1_key cell3_key cell5_key cell7_key with
              | some pfx, some efx =>
                Except.ok (Fig5Data.dataDriven
                  [pyRound1 pfx.recog_effect, pyRound1 pfx.arch_effect]
                  [pyRound1 efx.recog_effect, pyRound1 efx.arch_effect]
                  (((phil_means : List (String × CellVal)).map (fun p => p.2.n)).sum)
                  (((elem_means : List (String × CellVal)).map (fun p => p.2.n)).sum), dg.2)
              | _, _ => Except.ok (Fig5Data.fallback, dg.2)
    else Except.ok (Fig5Data.fallback, mg.2)

/- ── figure6: word clouds from suggestion text ─────────────────────────── -/

/-- The two run identifiers hardcoded in the figure6 query. -/
def fig6_run_ids : List String :=
  ["eval-2026-02-03-f5d4dd93", "eval-2026-02-06-a933d745"]

/-- The rows figure6 fetches over its own connection: profile_name and
suggestions of the records of its two runs with a non-null score and a judge
matching percent-claude-percent. -/
def fig6_rows (db : DB) : List (String × Option String) :=
  ((db : List EvalRecord).filter (fun r =>
      fig6_run_ids.contains r.run_id && r.overall_score.isSome
        && likeB r.judge_model "%claude%")).map
    (fun r => (r.profile_name, r.suggestions))

/-- Python iteration over a parsed JSON value: a list yields its elements, a
string yields its one-character substrings, a dict yields its keys; numbers
and None are not iterable (TypeError, caught by the except clause of
figure6). -/
def iterOfJ : J → Option (List J)
  | J.arr xs => some xs
  | J.str s => some (s.toList.map (fun c => J.str (String.mk [c])))
  | J.obj fields => some (fields.map (fun p => J.str p.1))
  | J.num _ => none
  | J.null => none

/-- str() of a JSON value as used on suggestion fields.  String fields pass
through unchanged; the script only ever renders strings here, so composite
values get a nominal rendering that no claim depends on. -/
def pyStr : J → String
  | J.null => "None"
  | J.str s => s
  | J.num q => if q.den = 1 then toString q.num else toString q
  | J.arr _ => "[...]"
  | J.obj _ => "\x7b...\x7d"

/-- The field extraction of one suggestion dict: for each of message, title
and reason, append str of the value when the key is present and truthy. -/
def partsOfObj (fields : List (String × J)) : List String :=
  (["message", "title", "reason"].filterMap (fun k =>
    match lookupField fields k with
    | some v => if v.truthy then some (pyStr v) else none
    | none => none))

/-- Collect text parts from the iterated suggestion items, skipping items
that are not dicts. -/
def extractParts : List J → List String
  | [] => []
  | J.obj fields :: rest => partsOfObj fields ++ extractParts rest
  | _ :: rest => extractParts rest

/-- The per-record text of figure6.  A NULL payload raises TypeError inside
json.loads and is falsy, giving the empty string.  A payload that fails to
parse, or parses to a non-iterable value, falls into the except clause where
the raw payload string itself becomes the text (str of a falsy payload being
the empty string).  Otherwise the message, title and reason fields of the
dict items are joined with spaces.  The loads parameter is the json.loads
oracle of the standard library. -/
def rowText (loads : String → Except Unit J) : Option String → String
  | none => ""
  | some s =>
    match loads s with
    | Except.error _ => if s ≠ "" then s else ""
    | Except.ok j =>
      match iterOfJ j with
      | none => if s ≠ "" then s else ""
      | some items => String.intercalate " " (extractParts items)

/-- True when the needle list is a prefix of the haystack list. -/
def startsList : List Char → List Char → Bool
  | [], _ => true
  | _ :: _, [] => false
  | a :: as, b :: bs => a == b && startsList as bs

/-- True when the needle occurs anywhere in the haystack. -/
def containsSub (needle : List Char) : List Char → Bool
  | [] => startsList needle []
  | c :: cs => startsList needle (c :: cs) || containsSub needle cs

/-- The Python membership test needle in haystack on strings. -/
def inStr (needle hay : String) : Bool := containsSub needle.toList hay.toList

/-- The row loop of figure6: each text goes to the recognition corpus when
the profile name contains recog, else to the base corpus, in row order. -/
def collectTexts (loads : String → Except Unit J) :
    List (String × Option String) → List String × List String
  | [] => ([], [])
  | (profile, raw) :: rest =>
    let acc := collectTexts loads rest
    let t := rowText loads raw
    if inStr "recog" profile then (acc.1, t :: acc.2) else (t :: acc.1, acc.2)

/-- The stop word set of figure6. -/
def stop_words : List String :=
  ["the", "a", "an", "is", "are", "was", "were", "be", "been", "being",
   "have", "has", "had", "do", "does", "did", "will", "would", "could",
   "should", "may", "might", "shall", "can", "need", "dare", "ought",
   "used", "to", "of", "in", "for", "on", "with", "at", "by", "from",
   "as", "into", "through", "during", "before", "after", "above", "below",
   "between", "out", "off", "over", "under", "again", "further", "then",
   "once", "here", "there", "when", "where", "why", "how", "all", "each",
   "every", "both", "few", "more", "most", "other", "some", "such", "no",
   "nor", "not", "only", "own", "same", "so", "than", "too", "very",
   "just", "because", "but", "and", "or", "if", "while", "about", "up",
   "that", "this", "these", "those", "it", "its", "he", "she", "they",
   "them", "their", "we", "our", "you", "your", "i", "me", "my", "also",
   "which", "who", "whom", "what", "any", "much", "many", "well",
   "still", "even", "back", "get", "go", "make", "like", "take",
   "one", "two", "first", "new", "way", "us",
   "lecture", "student", "course", "content", "topic", "material",
   "next", "current", "help", "suggest", "review", "start", "continue",
   "see", "know", "think", "let", "look", "want", "come"]

/-- Lowercase ASCII letter test for the word regex. -/
def isLowerAlpha (c : Char) : Bool := decide ('a' ≤ c) && decide (c ≤ 'z')

/-- Maximal runs of lowercase letters in a character list (the matches of the
regex of figure6 before the length bound); the first argument accumulates
the current run in reverse. -/
def lowerRuns : List Char → List Char → List (List Char)
  | cur, [] => if cur.isEmpty then [] else [cur.reverse]
  | cur, c :: cs =>
    if isLowerAlpha c then lowerRuns (c :: cur) cs
    else if cur.isEmpty then lowerRuns [] cs
    else cur.reverse :: lowerRuns [] cs

/-- re.findall of three-or-more lowercase letters on the lowercased corpus. -/
def wordsOf (corpus : String) : List String :=
  ((lowerRuns [] (corpus.toList.map Char.toLower)).filter (fun r => 3 ≤ r.length)).map
    (fun r => String.mk r)

/-- Increment the count of a word in the insertion-ordered frequency map. -/
def bumpFreq : List (String × ℕ) → String → List (String × ℕ)
  | [], w => [(w, 1)]
  | (k, c) :: rest, w =>
    if k = w then (k, c + 1) :: rest else (k, c) :: bumpFreq rest w

/-- text_to_freq of figure6: count the non-stop words of the corpus. -/
def text_to_freq (corpus : String) : List (String × ℕ) :=
  (wordsOf corpus).foldl
    (fun m w => if stop_words.contains w then m else bumpFreq m w) []

/-- Console-observable outcome of one figure routine. -/
inductive FigOut where
  | written
  | skipped (msg : String)
deriving DecidableEq, Repr

/-- figure6: when the word-cloud library is not importable, print the skip
notice and return before touching the store; when the store file is absent,
skip likewise; otherwise open a private connection (logged), fetch the rows,
close it, build the two corpora, and skip when either frequency map is empty,
else write the image. -/
def figure6_model (loads : String → Except Unit J) (wcInstalled : Bool)
    (fs : FS) (g : GState) : FigOut × GState :=
  if !wcInstalled then (FigOut.skipped "pip install wordcloud", g)
  else
    match fs.dbFile with
    | none => (FigOut.skipped "database not found", g)
    | some db =>
      let g' := { g with log := g.log ++ [CEvent.openLocal, CEvent.closeLocal] }
      let texts := collectTexts loads (fig6_rows db)
      let base_freq := text_to_freq (String.intercalate " " texts.1)
      let recog_freq := text_to_freq (String.intercalate " " texts.2)
      if base_freq.isEmpty || recog_freq.isEmpty then
        (FigOut.skipped "no text extracted", g')
      else (FigOut.written, g')

/- ── figure7 and figure8 ───────────────────────────────────────────────── -/

/-- The persona-to-cell mapping of figure7, in iteration order. -/
def personaCells : List (String × String × String) :=
  [("Suspicious", "cell_28_base_dialectical_suspicious_unified",
    "cell_29_recog_dialectical_suspicious_unified"),
   ("Adversary", "cell_30_base_dialectical_adversary_unified",
    "cell_31_recog_dialectical_adversary_unified"),
   ("Advocate", "cell_32_base_dialectical_advocate_unified",
    "cell_33_recog_dialectical_advocate_unified")]

/-- What figure7 draws: per-persona base and recognition means with the total
N, or the fallback. -/
inductive Fig7Data where
  | dataDriven (base recog : List ℚ) (total_n : ℕ)
  | fallback
deriving DecidableEq, Repr

/-- The persona loop of figure7: when either cell of a persona is missing,
base is reset and the loop breaks (returning none, the fallback path);
otherwise the rounded means are appended.  Indexing a mean that is None
would raise TypeError in round, modelled here although the query never
produces it. -/
def fig7_loop (cm : CellMeans) :
    List (String × String × String) → Except PyErr (Option (List ℚ × List ℚ))
  | [] => Except.ok (some ([], []))
  | (_, bk, rk) :: rest =>
    match (cm : List (String × CellVal)).lookup bk,
          (cm : List (String × CellVal)).lookup rk with
    | some bd, some rd =>
      match bd.mean, rd.mean with
      | some bq, some rq =>
        match fig7_loop cm rest with
        | Except.error e => Except.error e
        | Except.ok none => Except.ok none
        | Except.ok (some acc) =>
          Except.ok (some (pyRound1 bq :: acc.1, pyRound1 rq :: acc.2))
      | _, _ => Except.error PyErr.typeError
    | _, _ => Except.ok none

/-- The data resolution of figure7: manifest entry, store, one query over the
run list of the entry with the fixed claude-code filter, then the persona
loop; data-driven only when all three personas resolved. -/
def figure7_resolve (sqrtFn : ℚ → ℚ) (fs : FS) (g : GState) :
    Except PyErr (Fig7Data × GState) :=
  let mg := get_manifest fs g
  match fig_config_of mg.1 "figure7" with
  | Except.error e => Except.error e
  | Except.ok none => Except.ok (Fig7Data.fallback, mg.2)
  | Except.ok (some cfg) =>
    if cfg.truthy then
      let dg := get_db fs mg.2
      match dg.1 with
      | none => Except.ok (Fig7Data.fallback, dg.2)
      | some db =>
        match jget cfg "runs" with
        | Except.error e => Except.error e
        | Except.ok runsJ =>
        match asStrList runsJ with
        | Except.error e => Except.error e
        | Except.ok run_ids =>
          let cm := runQuery sqrtFn db run_ids "claude-code%"
          if cm.isEmpty then Except.ok (Fig7Data.fallback, dg.2)
          else
            match fig7_loop cm personaCells with
            | Except.error e => Except.error e
            | Except.ok none => Except.ok (Fig7Data.fallback, dg.2)
            | Except.ok (some acc) =>
              if acc.1.length = 3 then
                Except.ok (Fig7Data.dataDriven acc.1 acc.2
                  (((cm : List (String × CellVal)).map (fun p => p.2.n)).sum), dg.2)
              else Except.ok (Fig7Data.fallback, dg.2)
    else Except.ok (Fig7Data.fallback, mg.2)

/-- The scripted-learner recognition cells of figure8, in iteration order. -/
def scriptedRecogCells : List (String × String) :=
  [("cell_41_recog_dialectical_suspicious_unified_superego", "Self-reflect (susp.)"),
   ("cell_43_recog_dialectical_adversary_unified_superego", "Adversary"),
   ("cell_45_recog_dialectical_advocate_unified_superego", "Advocate"),
   ("cell_47_recog_dialectical_suspicious_unified_quantitative", "Quantitative"),
   ("cell_49_recog_dialectical_suspicious_unified_erosion", "Erosion"),
   ("cell_51_recog_dialectical_suspicious_unified_intersubjective", "Intersubjective"),
   ("cell_53_recog_dialectical_suspicious_unified_combined", "Combined"),
   ("cell_55_recog_dialectical_profile_tutor", "Prof. (tutor)"),
   ("cell_57_recog_dialectical_profile_bidirectional", "Prof. (bidir)")]

/-- The dynamic-learner recognition cells of figure8. -/
def dynamicRecogCells : List (String × String) :=
  [("cell_61_recog_dialectical_selfreflect_psycho", "Self-reflect"),
   ("cell_63_recog_dialectical_profile_bidirectional_psycho", "Profiling"),
   ("cell_64_recog_dialectical_intersubjective_psycho", "Intersubjective"),
   ("cell_65_recog_dialectical_combined_psycho", "Combined")]

/-- The cell collection loop of figure8: keep the label and rounded mean of
each cell present in the mapping, skipping absent cells. -/
def collectCells (cm : CellMeans) :
    List (String × String) → Except PyErr (List String × List ℚ)
  | [] => Except.ok ([], [])
  | (cell, label) :: rest =>
    match (cm : List (String × CellVal)).lookup cell with
    | some d =>
      match d.mean with
      | some q =>
        match collectCells cm rest with
        | Except.error e => Except.error e
        | Except.ok acc => Except.ok (label :: acc.1, pyRound1 q :: acc.2)
      | none => Except.error PyErr.typeError
    | none => collectCells cm rest

/-- What figure8 draws before sorting: scripted and dynamic label/value lists
with their Ns, or the fallback. -/
inductive Fig8Data where
  | dataDriven (sl : List String) (sv : List ℚ) (sn : ℕ)
      (dl : List String) (dv : List ℚ) (dn : ℕ)
  | fallback
deriving DecidableEq, Repr

/-- The data resolution of figure8: scripted query (kept when at least seven
cells resolve), dynamic query over the two dynamic runs (kept when at least
three resolve), data-driven only when both parts were kept. -/
def figure8_resolve (sqrtFn : ℚ → ℚ) (fs : FS) (g : GState) :
    Except PyErr (Fig8Data × GState) :=
  let mg := get_manifest fs g
  match fig_config_of mg.1 "figure8" with
  | Except.error e => Except.error e
  | Except.ok none => Except.ok (Fig8Data.fallback, mg.2)
  | Except.ok (some cfg) =>
    if cfg.truthy then
      let dg := get_db fs mg.2
      match dg.1 with
      | none => Except.ok (Fig8Data.fallback, dg.2)
      | some db =>
        match jget cfg "runs" with
        | Except.error e => Except.error e
        | Except.ok runsJ =>
        match jget runsJ "scripted" with
        | Except.error e => Except.error e
        | Except.ok sJ =>
        match asStr sJ with
        | Except.error e => Except.error e
        | Except.ok sRun =>
          let s_means := runQuery sqrtFn db [sRun] "claude-code%"
          match (if s_means.isEmpty then Except.ok none
                 else
                   match collectCells s_means scriptedRecogCells with
                   | Except.error e => Except.error e
                   | Except.ok acc =>
                     if 7 ≤ acc.1.length then
                       Except.ok (some (acc.1, acc.2,
                         ((s_means : List (String × CellVal)).map (fun p => p.2.n)).sum))
                     else Except.ok none) with
          | Except.error e => Except.error e
          | Except.ok sPart =>
          match jget cfg "runs" with
          | Except.error e => Except.error e
          | Except.ok runsJ2 =>
          match jget runsJ2 "dynamic_60_63" with
          | Except.error e => Except.error e
          | Except.ok dJ1 =>
          match asStr dJ1 with
          | Except.error e => Except.error e
          | Except.ok dRun1 =>
          match jget cfg "runs" with
          | Except.error e => Except.error e
          | Except.ok runsJ3 =>
          match jget runsJ3 "dynamic_64_65" with
          | Except.error e => Except.error e
          | Except.ok dJ2 =>
          match asStr dJ2 with
          | Except.error e => Except.error e
          | Except.ok dRun2 =>
            let d_means := runQuery sqrtFn db [dRun1, dRun2] "claude-code%"
            match (if d_means.isEmpty then Except.ok none
                   else
                     match collectCells d_means dynamicRecogCells with
                     | Except.error e => Except.error e
                     | Except.ok acc =>
                       if 3 ≤ acc.1.length then
                         Except.ok (some (acc.1, acc.2,
                           ((d_means : List (String × CellVal)).map (fun p => p.2.n)).sum))
                       else Except.ok none) with
            | Except.error e => Except.error e
            | Except.ok dPart =>
              match sPart, dPart with
              | some sp, some dp =>
                Except.ok (Fig8Data.dataDriven sp.1 sp.2.1 sp.2.2 dp.1 dp.2.1 dp.2.2, dg.2)
              | _, _ => Except.ok (Fig8Data.fallback, dg.2)
    else Except.ok (Fig8Data.fallback, mg.2)

/- ── main ──────────────────────────────────────────────────────────────── -/

/-- The whole run of the script, restricted to its observable data behaviour:
the preamble touches the manifest and, when it is truthy, the store; the nine
figures run in order (the chart-only figures 1, 2, 3 and 9 always write, the
data-driven ones write whichever bundle resolved, figure6 may skip); a still
open shared connection is closed at the very end.  A propagated exception
from any figure aborts the whole run. -/
def main_model (sqrtFn : ℚ → ℚ) (loads : String → Except Unit J)
    (wcInstalled : Bool) (fs : FS) :
    Except PyErr (List (String × FigOut) × GState) :=
  let mg := get_manifest fs g0
  let g2 :=
    match mg.1 with
    | some j => if j.truthy then (get_db fs mg.2).2 else mg.2
    | none => mg.2
  match figure4_resolve sqrtFn fs g2 with
  | Except.error e => Except.error e
  | Except.ok r4 =>
  match figure5_resolve sqrtFn fs r4.2 with
  | Except.error e => Except.error e
  | Except.ok r5 =>
    let r6 := figure6_model loads wcInstalled fs r5.2
    match figure7_resolve sqrtFn fs r6.2 with
    | Except.error e => Except.error e
    | Except.ok r7 =>
    match figure8_resolve sqrtFn fs r7.2 with
    | Except.error e => Except.error e
    | Except.ok r8 =>
      let gEnd :=
        if r8.2.dbCache.isSome then
          { r8.2 with log := r8.2.log ++ [CEvent.closeShared] }
        else r8.2
      Except.ok
        ([("figure1", FigOut.written), ("figure2", FigOut.written),
          ("figure3", FigOut.written), ("figure4", FigOut.written),
          ("figure5", FigOut.written), ("figure6", r6.1),
          ("figure7", FigOut.written), ("figure8", FigOut.written),
          ("figure9", FigOut.written)], gEnd)

/-- Number of connection-open events in a trace. -/
def openCount (es : List CEvent) : ℕ :=
  (es.filter (fun e =>
    match e with
    | CEvent.openShared => true
    | CEvent.openLocal => true
    | _ => false)).length

/-- Number of connection-close events in a trace. -/
def closeCount (es : List CEvent) : ℕ :=
  (es.filter (fun e =>
    match e with
    | CEvent.closeShared => true
    | CEvent.closeLocal => true
    | _ => false)).length

/-- True exactly on the ok results of an Except computation. -/
def isOkE : Except PaperFigs.PyErr α → Bool
  | Except.ok _ => true
  | Except.error _ => false

/-- One resolution pass in the sense of the idempotence property: query the
cell means for a run set and judge filter, then derive the factorial effects
for the four standard cells.  A none bundle is the signal that sends the
caller to the fallback provenance. -/
def resolution (sqrtFn : ℚ → ℚ) (fs : FS) (g : GState)
    (run_ids : List String) (jf : String) : Option Effects × GState :=
  let q := query_cell_means sqrtFn fs g run_ids jf
  (compute_2x2_effects q.1 cell1_key cell3_key cell5_key cell7_key, q.2)

/- ── well-formedness of the figure4 manifest entry ─────────────────────── -/

/-- A figure4 manifest entry whose keys all resolve: a string judge_filter
and, for every model key of the loop, a runs entry with a string list of
run_ids and a string label. -/
def fig4RunsWF (cfg : J) : Prop :=
  (∃ jfJ s, jget cfg "judge_filter" = Except.ok jfJ ∧ asStr jfJ = Except.ok s) ∧
  ∃ runsJ, jget cfg "runs" = Except.ok runsJ ∧
    ∀ k, k ∈ fig4_keys →
      ∃ cfgk idsJ ids lJ l, jget runsJ k = Except.ok cfgk ∧
        jget cfgk "run_ids" = Except.ok idsJ ∧ asStrList idsJ = Except.ok ids ∧
        jget cfgk "label" = Except.ok lJ ∧ asStr lJ = Except.ok l

/-- The manifest states under which figure4 cannot raise: file absent, file
parsed to a falsy value, or a figures/figure4 chain that resolves and, when
the entry is truthy, is well formed. -/
def manifest4WF (fs : FS) : Prop :=
  fs.manifestFile = none ∨
  ∃ j, fs.manifestFile = some j ∧
    (j.truthy = false ∨
     ∃ fJ cfg, jget j "figures" = Except.ok fJ ∧ jget fJ "figure4" = Except.ok cfg ∧
       (cfg.truthy = false ∨ fig4RunsWF cfg))

/- ── concrete fixtures used by witnesses and counterexamples ───────────── -/

/-- Placeholder square-root oracle for concrete runs.  Every concrete store
below has constant-score cells, so the variance guard short-circuits and the
oracle is never consulted. -/
def sqrtZero : ℚ → ℚ := fun _ => 0

/-- json.loads oracle for payloads that are not valid JSON: every payload in
the concrete examples below (such as plain prose) raises JSONDecodeError. -/
def loadsNone : String → Except Unit J := fun _ => Except.error ()

/-- A manifest that is present and truthy but lacks the figures key. -/
def fsBad : FS := { manifestFile := some (J.obj [("x", J.num 1)]), dbFile := none }

/-- A well-formed figure4 manifest entry for a single run r1. -/
def mFig4 (jf : String) : J :=
  J.obj [("figures", J.obj [("figure4",
    J.obj [("judge_filter", J.str jf),
           ("runs", J.obj [("kimi",
             J.obj [("run_ids", J.arr [J.str "r1"]), ("label", J.str "Kimi K2.5")]),
             ("nemotron",
              J.obj [("run_ids", J.arr [J.str "r1"]), ("label", J.str "Nemotron")]),
             ("deepseek",
              J.obj [("run_ids", J.arr [J.str "r1"]), ("label", J.str "DeepSeek")]),
             ("glm",
              J.obj [("run_ids", J.arr [J.str "r1"]), ("label", J.str "GLM-4.7")]),
             ("haiku",
              J.obj [("run_ids", J.arr [J.str "r1"]), ("label", J.str "Haiku 4.5")])])])])]

/-- A record of run r1 scored by a claude-code judge. -/
def recOf (profile : String) (score : ℚ) : EvalRecord :=
  { run_id := "r1", profile_name := profile, judge_model := "claude-code-x",
    overall_score := some score, suggestions := none }

/-- A store covering only three of the four factorial cells: the
recognition-multi cell has zero observations. -/
def dbThreeCells : DB :=
  [recOf cell1_key 70, recOf cell3_key 75, recOf cell5_key 80]

/-- Manifest present and well formed, store present but incomplete: the state
of the figure4 fallback on an incomplete design. -/
def fsIncomplete : FS :=
  { manifestFile := some (mFig4 "claude-code%"), dbFile := some dbThreeCells }

/-- Manifest whose judge filter matches no record in the store. -/
def fsNoMatch : FS :=
  { manifestFile := some (mFig4 "nope%"), dbFile := some dbThreeCells }

/-- The four-cell mapping with means 70, 75, 80, 85. -/
def cmLiteral : CellMeans :=
  [(cell1_key, { mean := some 70, n := 1, sd := 0 }),
   (cell3_key, { mean := some 75, n := 1, sd := 0 }),
   (cell5_key, { mean := some 80, n := 1, sd := 0 }),
   (cell7_key, { mean := some 85, n := 1, sd := 0 })]

/-- The bundle compute_2x2_effects builds from the literal mapping, with the
arithmetic left unevaluated. -/
def effLiteral : Effects :=
  { recog_effect := ((80 + 85) / 2) - ((70 + 75) / 2)
    arch_effect := ((75 + 85) / 2) - ((70 + 80) / 2)
    interaction := (85 - 80) - (75 - 70)
    means := { bs := 70, bm := 75, rs := 80, rm := 85 } }

/-- A store with one constant-valued cell: two observations of score 5. -/
def dbConstant : DB := [recOf "p" 5, recOf "p" 5]

/-- Manifest with all four data-driven figure entries present but falsy, so
every figure resolver takes its fallback without touching the runs keys, and
a present (empty) store: the configuration of the two-connection trace. -/
def fsTwoConn : FS :=
  { manifestFile := some (J.obj [("figures",
      J.obj [("figure4", J.num 0), ("figure5", J.num 0),
             ("figure7", J.num 0), ("figure8", J.num 0)])]),
    dbFile := some ([] : List EvalRecord) }

/-- Absent manifest and absent store: the all-fallback run. -/
def fsEmpty : FS := { manifestFile := none, dbFile := none }

/-- One base-condition row whose suggestions payload is prose, not JSON. -/
def rowsMalformed : List (String × Option String) :=
  [("cell_1_base_single_unified", some "zebra zebra")]

/- ── a binary64 rounding model for the interaction identity ────────────── -/

/-- The binary64-representable magnitudes as the float arithmetic of the
program sees them: an integer significand of magnitude at most 2 ^ 53 - 1
scaled by a power of two.  Exponent overflow and subnormals sit hundreds of
orders of magnitude away from every value this model is applied to below, so
within that window this set coincides with the finite binary64 values. -/
def isFloat (q : ℚ) : Prop :=
  ∃ m e : ℤ, |m| ≤ 2 ^ 53 - 1 ∧ q = (m : ℚ) * (2 : ℚ) ^ e

/-- A value whose canonical binary64 significand is even, stated as having
some in-range representation with an even significand: doubling the
significand of a non-maximal representation stays in range, so exactly the
values with an even canonical significand qualify. -/
def tieEven (r : ℚ) : Prop :=
  ∃ m e : ℤ, |m| ≤ 2 ^ 53 - 1 ∧ m % 2 = 0 ∧ r = (m : ℚ) * (2 : ℚ) ^ e

/-- Round to nearest, ties to even: the result is representable, no
representable value is closer to the exact value, and whenever a distinct
representable value is equally close, the chosen one is the even one. -/
def roundsNE (x r : ℚ) : Prop :=
  isFloat r ∧ (∀ f, isFloat f → |x - r| ≤ |x - f|) ∧
    (∀ f, isFloat f → f ≠ r → |x - f| = |x - r| → tieEven r)

/-- One binary64 subtraction: the exact difference, rounded. -/
def floatSub (x y r : ℚ) : Prop := roundsNE (x - y) r

/-- The binary64 evaluation of the interaction expression of
compute_2x2_effects, (rm - rs) - (bm - bs), every subtraction rounded. -/
def floatInteraction (bs bm rs rm i : ℚ) : Prop :=
  ∃ t1 t2, floatSub rm rs t1 ∧ floatSub bm bs t2 ∧ floatSub t1 t2 i

/-- The binary64 evaluation of the expression the claim calls equal to it,
(rm - bm) - (rs - bs). -/
def floatInteractionSym (bs bm rs rm i : ℚ) : Prop :=
  ∃ u1 u2, floatSub rm bm u1 ∧ floatSub rs bs u2 ∧ floatSub u1 u2 i

/-- The float evaluation yields exactly i: i is a possible result and
rounding leaves no other. -/
def evalsTo (P : ℚ → Prop) (i : ℚ) : Prop := P i ∧ ∀ j, P j → j = i


/- ════════════════════════════ theorems ═══════════════════════════════════ -/

/-- C1: for every cell-means mapping in which all four required cells carry a
mean, compute_2x2_effects returns the bundle with
recognition effect ((rs + rm) / 2) - ((bs + bm) / 2),
architecture effect ((bm + rm) / 2) - ((bs + rs) / 2) and
interaction (rm - rs) - (bm - bs); the witness instantiates the literal means
70, 75, 80, 85 and obtains exactly 10, 5 and 0. -/
theorem compute_effects_formula (cm : CellMeans) (k1 k2 k3 k4 : String)
    (bs bm rs rm : ℚ)
    (h1 : getMeanVal cm k1 = some bs) (h2 : getMeanVal cm k2 = some bm)
    (h3 : getMeanVal cm k3 = some rs) (h4 : getMeanVal cm k4 = some rm) :
    compute_2x2_effects cm k1 k2 k3 k4 =
      some { recog_effect := ((rs + rm) / 2) - ((bs + bm) / 2)
             arch_effect := ((bm + rm) / 2) - ((bs + rs) / 2)
             interaction := (rm - rs) - (bm - bs)
             means := { bs := bs, bm := bm, rs := rs, rm := rm } } := by
  unfold compute_2x2_effects
  rw [h1, h2, h3, h4]

/-- Witness for C1: on the literal four-cell mapping with means 70, 75, 80
and 85, the bundle is exactly 10, 5 and 0. -/
theorem compute_effects_formula_witness :
    compute_2x2_effects cmLiteral cell1_key cell3_key cell5_key cell7_key =
      some { recog_effect := 10, arch_effect := 5, interaction := 0,
             means := { bs := 70, bm := 75, rs := 80, rm := 85 } } := by
  rw [compute_effects_formula cmLiteral cell1_key cell3_key cell5_key cell7_key
    70 75 80 85 rfl rfl rfl rfl]
  simp only [Option.some.injEq, Effects.mk.injEq, Means.mk.injEq]
  norm_num

/-- C10 (amended): in exact arithmetic the interaction returned by
compute_2x2_effects is symmetric in the two factors: it equals the
recognition effect at multi minus the recognition effect at single,
(rm - bm) - (rs - bs).  The identity holds of the formulas, not of every
binary64 evaluation: under the float arithmetic of the program the two
expressions can differ by a rounding ulp (see the counterexample below). -/
theorem interaction_symmetry (cm : CellMeans) (k1 k2 k3 k4 : String) (e : Effects)
    (h : compute_2x2_effects cm k1 k2 k3 k4 = some e) :
    e.interaction = (e.means.rm - e.means.bm) - (e.means.rs - e.means.bs) := by
  unfold compute_2x2_effects at h
  split at h
  · rename_i bs bm rs rm hbs hbm hrs hrm
    injection h with h
    subst h
    dsimp only
    ring
  · exact Option.noConfusion h

/-- Witness for C10: on the literal four-cell mapping the returned
interaction equals the difference of the two simple recognition effects. -/
theorem interaction_symmetry_witness :
    effLiteral.interaction
      = (effLiteral.means.rm - effLiteral.means.bm)
        - (effLiteral.means.rs - effLiteral.means.bs) :=
  interaction_symmetry cmLiteral cell1_key cell3_key cell5_key cell7_key effLiteral rfl

/-- An exact representable value rounds to itself. -/
theorem roundsNE_of_isFloat (x : ℚ) (hx : isFloat x) : roundsNE x x := by
  refine ⟨hx, fun f hf => ?_, fun f hf hne habs => ?_⟩
  · rw [sub_self, abs_zero]
    exact abs_nonneg _
  · rw [sub_self, abs_zero] at habs
    exact absurd (sub_eq_zero.mp (abs_eq_zero.mp habs)).symm hne

/-- Rounding an exact representable value is deterministic. -/
theorem roundsNE_exact_unique (x r : ℚ) (hx : isFloat x) (h : roundsNE x r) :
    r = x := by
  have h0 := h.2.1 x hx
  rw [sub_self, abs_zero] at h0
  have hz := abs_eq_zero.mp (le_antisymm h0 (abs_nonneg _))
  exact (sub_eq_zero.mp hz).symm

/-- An in-range significand times a power of two never hits 2 ^ 53 + 1:
the odd integer just above the top of the 53-bit range is not
representable. -/
theorem no_sig_odd (m : ℤ) (k : ℕ) (hm : |m| ≤ 2 ^ 53 - 1) :
    m * 2 ^ k ≠ 2 ^ 53 + 1 := by
  have hm2 := abs_le.mp hm
  norm_num at hm2
  have h53 : (2 : ℤ) ^ 53 = 9007199254740992 := by norm_num
  cases k with
  | zero =>
    simp only [pow_zero, mul_one]
    omega
  | succ k2 =>
    intro h
    have ht : 2 * (m * 2 ^ k2) = 2 ^ 53 + 1 := by
      rw [← h, pow_succ]; ring
    rw [h53] at ht
    set t := m * 2 ^ k2
    omega

/-- An even in-range significand times a power of two never hits
2 ^ 53 + 2, the value one ulp above 1 scaled to integers. -/
theorem no_sig_even (m : ℤ) (k : ℕ) (hm : |m| ≤ 2 ^ 53 - 1)
    (hev : m % 2 = 0) : m * 2 ^ k ≠ 2 ^ 53 + 2 := by
  have hm2 := abs_le.mp hm
  norm_num at hm2
  have h53 : (2 : ℤ) ^ 53 = 9007199254740992 := by norm_num
  obtain ⟨m2, rfl⟩ : ∃ m2, m = 2 * m2 := ⟨m / 2, by omega⟩
  cases k with
  | zero =>
    simp only [pow_zero, mul_one]
    omega
  | succ k2 =>
    intro h
    have ht : 4 * (m2 * 2 ^ k2) = 2 ^ 53 + 2 := by
      rw [← h, pow_succ]; ring
    rw [h53] at ht
    set t := m2 * 2 ^ k2
    omega

/-- Scaling a representation with exponent at least -53 to an integer. -/
theorem rep_scaled (m e : ℤ) (he : (-53 : ℤ) ≤ e) :
    ∃ k : ℕ, ((m * 2 ^ k : ℤ) : ℚ) = (m : ℚ) * (2 : ℚ) ^ e * 2 ^ (53 : ℕ) := by
  refine ⟨(e + 53).toNat, ?_⟩
  have hke : (((e + 53).toNat : ℕ) : ℤ) = e + 53 := Int.toNat_of_nonneg (by omega)
  push_cast
  rw [mul_assoc]
  congr 1
  rw [← zpow_natCast (2 : ℚ) (e + 53).toNat, hke,
    zpow_add₀ (by norm_num : (2 : ℚ) ≠ 0)]
  norm_num

/-- A representation with exponent at most -54 has value below 1. -/
theorem rep_small (m e : ℤ) (hm : |m| ≤ 2 ^ 53 - 1) (he : e ≤ (-54 : ℤ)) :
    (m : ℚ) * (2 : ℚ) ^ e < 1 := by
  have hpos : (0 : ℚ) < (2 : ℚ) ^ e := zpow_pos (by norm_num) e
  have hmq : |(m : ℚ)| ≤ (2 : ℚ) ^ 53 - 1 := by exact_mod_cast hm
  calc (m : ℚ) * 2 ^ e ≤ |(m : ℚ) * 2 ^ e| := le_abs_self _
    _ = |(m : ℚ)| * 2 ^ e := by rw [abs_mul, abs_of_pos hpos]
    _ ≤ ((2 : ℚ) ^ 53 - 1) * 2 ^ e :=
        mul_le_mul_of_nonneg_right hmq (le_of_lt hpos)
    _ ≤ ((2 : ℚ) ^ 53 - 1) * 2 ^ (-54 : ℤ) :=
        mul_le_mul_of_nonneg_left
          (zpow_le_zpow_right₀ (by norm_num) he) (by norm_num)
    _ < 1 := by norm_num

/-- The only representable values in the closed window from 1 to one ulp
above it are its two endpoints. -/
theorem float_window (f : ℚ) (hf : isFloat f)
    (h1 : 1 ≤ f) (h2 : f ≤ 1 + 1 / 2 ^ 52) :
    f = 1 ∨ f = 1 + 1 / 2 ^ 52 := by
  obtain ⟨m, e, hm, rfl⟩ := hf
  rcases le_or_lt (-53 : ℤ) e with he | he
  · obtain ⟨k, hk⟩ := rep_scaled m e he
    have hpow : (0 : ℚ) < 2 ^ (53 : ℕ) := by positivity
    have hlo : ((2 : ℚ) ^ 53) ≤ ((m * 2 ^ k : ℤ) : ℚ) := by
      rw [hk]
      calc ((2 : ℚ) ^ 53) = 1 * 2 ^ (53 : ℕ) := by ring
        _ ≤ (m : ℚ) * 2 ^ e * 2 ^ (53 : ℕ) :=
            mul_le_mul_of_nonneg_right h1 (le_of_lt hpow)
    have hc2 : ((1 : ℚ) + 1 / 2 ^ 52) * 2 ^ (53 : ℕ) = 2 ^ 53 + 2 := by norm_num
    have hhi : ((m * 2 ^ k : ℤ) : ℚ) ≤ (2 : ℚ) ^ 53 + 2 := by
      rw [hk, ← hc2]
      exact mul_le_mul_of_nonneg_right h2 (le_of_lt hpow)
    have hloZ : (2 ^ 53 : ℤ) ≤ m * 2 ^ k := by exact_mod_cast hlo
    have hhiZ : m * 2 ^ k ≤ 2 ^ 53 + 2 := by exact_mod_cast hhi
    have hodd := no_sig_odd m k hm
    have h53 : (2 : ℤ) ^ 53 = 9007199254740992 := by norm_num
    rw [h53] at hloZ hhiZ hodd
    set N := m * 2 ^ k with hN
    have hcases : N = 9007199254740992 ∨ N = 9007199254740994 := by omega
    rcases hcases with hNv | hNv
    · left
      have hq : (m : ℚ) * 2 ^ e * 2 ^ (53 : ℕ) = 1 * 2 ^ (53 : ℕ) := by
        rw [← hk, hNv]
        push_cast
        norm_num
      exact mul_right_cancel₀ hpow.ne' hq
    · right
      have hq : (m : ℚ) * 2 ^ e * 2 ^ (53 : ℕ)
          = (1 + 1 / 2 ^ 52) * 2 ^ (53 : ℕ) := by
        rw [← hk, hNv]
        push_cast
        norm_num
      exact mul_right_cancel₀ hpow.ne' hq
  · exfalso
    have := rep_small m e hm (by omega)
    linarith

/-- One ulp above 1 has no even in-range representation: its canonical
significand 2 ^ 52 + 1 is odd and already maximal. -/
theorem not_tieEven_ulp : ¬ tieEven (1 + 1 / 2 ^ 52) := by
  rintro ⟨m, e, hm, hev, hrep⟩
  rcases le_or_lt (-53 : ℤ) e with he | he
  · obtain ⟨k, hk⟩ := rep_scaled m e he
    have hQ : ((m * 2 ^ k : ℤ) : ℚ) = ((2 ^ 53 + 2 : ℤ) : ℚ) := by
      rw [hk, ← hrep]
      push_cast
      norm_num
    have hZ : m * 2 ^ k = 2 ^ 53 + 2 := by exact_mod_cast hQ
    exact no_sig_even m k hm hev hZ
  · have := rep_small m e hm (by omega)
    rw [← hrep] at this
    norm_num at this

/-- The exact value halfway between 1 and the next float rounds to 1: the
tie is broken to the even significand. -/
theorem roundsNE_tie_one : roundsNE (1 + 1 / 2 ^ 53) 1 := by
  have hf1 : isFloat 1 := ⟨1, 0, by norm_num, by norm_num⟩
  refine ⟨hf1, fun f hf => ?_, fun f hf hne habs => ?_⟩
  · rw [show (1 + 1 / 2 ^ 53 - 1 : ℚ) = 1 / 2 ^ 53 by ring,
      abs_of_pos (by norm_num : (0 : ℚ) < 1 / 2 ^ 53)]
    by_contra hlt
    push_neg at hlt
    have hb := abs_sub_lt_iff.mp hlt
    rcases float_window f hf (by linarith [hb.1, hb.2]) (by linarith [hb.1, hb.2]) with
      h | h <;> rw [h] at hb <;>
      [exact absurd hb.1 (by norm_num); exact absurd hb.2 (by norm_num)]
  · exact ⟨2, -1, by norm_num, by norm_num, by norm_num⟩

/-- The tie halfway between 1 and the next float rounds only to 1. -/
theorem roundsNE_tie_one_unique (r : ℚ) (h : roundsNE (1 + 1 / 2 ^ 53) r) :
    r = 1 := by
  obtain ⟨hrf, hmin, htie⟩ := h
  have hf1 : isFloat 1 := ⟨1, 0, by norm_num, by norm_num⟩
  have h1 := hmin 1 hf1
  rw [show (1 + 1 / 2 ^ 53 - 1 : ℚ) = 1 / 2 ^ 53 by ring,
    abs_of_pos (by norm_num : (0 : ℚ) < 1 / 2 ^ 53)] at h1
  have hb := abs_le.mp h1
  rcases float_window r hrf (by linarith [hb.1, hb.2]) (by linarith [hb.1, hb.2]) with
    hrv | hrv
  · exact hrv
  · exfalso
    apply not_tieEven_ulp
    rw [← hrv]
    refine htie 1 hf1 ?_ ?_
    · rw [hrv]; norm_num
    · rw [hrv,
        show (1 + 1 / 2 ^ 53 - 1 : ℚ) = 1 / 2 ^ 53 by ring,
        show (1 + 1 / 2 ^ 53 - (1 + 1 / 2 ^ 52) : ℚ) = -(1 / 2 ^ 53) by ring,
        abs_neg]

/-- Counterexample to C10 as stated: under the binary64 arithmetic of the
program the interaction is not symmetric in the two factors.  At bs = 0,
bm = 1, rs = 2 ^ -53, rm = 1 + 2 ^ -52 (all exactly representable), the
expression the code computes, (rm - rs) - (bm - bs), evaluates to exactly 0
because rm - rs ties halfway between 1 and the next float and rounds to the
even 1, while the claimed-equal (rm - bm) - (rs - bs) evaluates exactly,
giving 2 ^ -53. -/
theorem interaction_float_counterexample :
    evalsTo (floatInteraction 0 1 (1 / 2 ^ 53) (1 + 1 / 2 ^ 52)) 0 ∧
    evalsTo (floatInteractionSym 0 1 (1 / 2 ^ 53) (1 + 1 / 2 ^ 52)) (1 / 2 ^ 53) ∧
    (0 : ℚ) ≠ 1 / 2 ^ 53 := by
  have hf0 : isFloat 0 := ⟨0, 0, by norm_num, by norm_num⟩
  have hf1 : isFloat 1 := ⟨1, 0, by norm_num, by norm_num⟩
  have hf52 : isFloat (1 / 2 ^ 52) := ⟨1, -52, by norm_num, by norm_num⟩
  have hf53 : isFloat (1 / 2 ^ 53) := ⟨1, -53, by norm_num, by norm_num⟩
  have hrmrs : ((1 + 1 / 2 ^ 52 : ℚ) - 1 / 2 ^ 53) = 1 + 1 / 2 ^ 53 := by norm_num
  have hrmbm : ((1 + 1 / 2 ^ 52 : ℚ) - 1) = 1 / 2 ^ 52 := by ring
  have hudiff : ((1 / 2 ^ 52 : ℚ) - 1 / 2 ^ 53) = 1 / 2 ^ 53 := by norm_num
  refine ⟨⟨⟨1, 1, ?_, ?_, ?_⟩, ?_⟩, ⟨⟨1 / 2 ^ 52, 1 / 2 ^ 53, ?_, ?_, ?_⟩, ?_⟩,
    by norm_num⟩
  · unfold floatSub
    rw [hrmrs]
    exact roundsNE_tie_one
  · unfold floatSub
    rw [sub_zero]
    exact roundsNE_of_isFloat 1 hf1
  · unfold floatSub
    rw [sub_self]
    exact roundsNE_of_isFloat 0 hf0
  · rintro j ⟨t1, t2, h1, h2, h3⟩
    unfold floatSub at h1 h2 h3
    rw [hrmrs] at h1
    rw [sub_zero] at h2
    have ht1 : t1 = 1 := roundsNE_tie_one_unique t1 h1
    have ht2 : t2 = 1 := roundsNE_exact_unique 1 t2 hf1 h2
    rw [ht1, ht2, sub_self] at h3
    exact roundsNE_exact_unique 0 j hf0 h3
  · unfold floatSub
    rw [hrmbm]
    exact roundsNE_of_isFloat _ hf52
  · unfold floatSub
    rw [sub_zero]
    exact roundsNE_of_isFloat _ hf53
  · unfold floatSub
    rw [hudiff]
    exact roundsNE_of_isFloat _ hf53
  · rintro j ⟨u1, u2, h1, h2, h3⟩
    unfold floatSub at h1 h2 h3
    rw [hrmbm] at h1
    rw [sub_zero] at h2
    have hu1 : u1 = 1 / 2 ^ 52 := roundsNE_exact_unique _ _ hf52 h1
    have hu2 : u2 = 1 / 2 ^ 53 := roundsNE_exact_unique _ _ hf53 h2
    rw [hu1, hu2, hudiff] at h3
    exact roundsNE_exact_unique _ _ hf53 h3

/-- C4: every group reported by the query whose variance estimate is
non-positive has standard deviation exactly 0, and a null variance also
reports 0, for every square-root oracle (so never a negative number or a
NaN). -/
theorem sd_nonpositive_var_zero (sqrtFn : ℚ → ℚ) (db : DB)
    (run_ids : List String) (jf k : String) (cell : CellVal)
    (hmem : (k, cell) ∈ runQuery sqrtFn db run_ids jf)
    (hvar : groupVar (groupScores (filteredRecords db run_ids jf) k) ≤ 0) :
    cell.sd = 0 ∧ sdOf sqrtFn none = 0 := by
  refine ⟨?_, rfl⟩
  simp only [runQuery] at hmem
  rcases List.mem_map.mp hmem with ⟨a, ha, heq⟩
  obtain ⟨hk, hc⟩ := Prod.mk.injEq .. |>.mp heq
  subst hk
  rw [← hc]
  show sdOf sqrtFn (some (groupVar (groupScores (filteredRecords db run_ids jf) a))) = 0
  simp only [sdOf]
  rw [if_neg]
  rintro ⟨-, hpos⟩
  exact absurd hpos (not_lt.mpr hvar)

/-- Witness for C4: a constant-valued cell (two observations of score 5) is
reported with standard deviation exactly 0. -/
theorem sd_nonpositive_var_zero_witness :
    (("p", aggOf sqrtZero (groupScores (filteredRecords dbConstant ["r1"] "claude-code%") "p"))
        ∈ runQuery sqrtZero dbConstant ["r1"] "claude-code%") ∧
    (aggOf sqrtZero (groupScores (filteredRecords dbConstant ["r1"] "claude-code%") "p")).sd
      = 0 := by
  constructor
  · exact List.Mem.head _
  · refine (sd_nonpositive_var_zero sqrtZero dbConstant ["r1"] "claude-code%" "p" _
      (List.Mem.head _) ?_).1
    have hs : groupScores (filteredRecords dbConstant ["r1"] "claude-code%") "p"
        = [5, 5] := rfl
    rw [hs]
    norm_num [groupVar, avg]

/-- C2: when any of the four required cells is absent from the mapping (or
present without a mean) the computation returns None, never a partial
bundle; every cell the query does report comes from at least one observation
(so a zero-observation cell is never present with mean 0); and on a store
whose recognition-multi cell has zero observations, figure4 resolves to the
hardcoded fallback. -/
theorem missing_cell_yields_none :
    (∀ (cm : CellMeans) (k1 k2 k3 k4 : String),
       (getMeanVal cm k1 = none ∨ getMeanVal cm k2 = none ∨
        getMeanVal cm k3 = none ∨ getMeanVal cm k4 = none) →
       compute_2x2_effects cm k1 k2 k3 k4 = none) ∧
    (∀ (sqrtFn : ℚ → ℚ) (db : DB) (run_ids : List String) (jf k : String)
       (cell : CellVal),
       (k, cell) ∈ runQuery sqrtFn db run_ids jf → 0 < cell.n) ∧
    (figure4_resolve sqrtZero fsIncomplete g0).map (fun p => p.1)
      = Except.ok Fig4Data.fallback := by
  refine ⟨?_, ?_, rfl⟩
  · intro cm k1 k2 k3 k4 h
    unfold compute_2x2_effects
    split
    · rename_i bs bm rs rm hbs hbm hrs hrm
      rcases h with h | h | h | h <;> simp_all
    · rfl
  · intro sqrtFn db run_ids jf k cell hmem
    simp only [runQuery] at hmem
    rcases List.mem_map.mp hmem with ⟨a, ha, heq⟩
    obtain ⟨hk, hc⟩ := Prod.mk.injEq .. |>.mp heq
    subst hk
    rw [← hc]
    show 0 < (groupScores (filteredRecords db run_ids jf) a).length
    simp only [profileKeys] at ha
    rcases List.mem_map.mp (List.mem_dedup.mp ha) with ⟨r, hr, hrk⟩
    have hscore : r.overall_score.isSome = true := by
      have hm := (List.mem_filter.mp hr).2
      simp only [matchesFilter, Bool.and_eq_true] at hm
      exact hm.2
    obtain ⟨v, hv⟩ := Option.isSome_iff_exists.mp hscore
    have hvmem : v ∈ groupScores (filteredRecords db run_ids jf) a := by
      refine List.mem_filterMap.mpr ⟨r, ?_, hv⟩
      exact List.mem_filter.mpr ⟨hr, by simp [hrk]⟩
    exact List.length_pos.mpr (List.ne_nil_of_mem hvmem)

/-- Witness for C2: the empty mapping misses every cell and computes to
None, and the constant cell of the witness store is reported with a positive
count. -/
theorem missing_cell_yields_none_witness :
    compute_2x2_effects ([] : List (String × CellVal)) cell1_key cell3_key cell5_key cell7_key
        = none ∧
    0 < (aggOf sqrtZero (groupScores (filteredRecords dbConstant ["r1"] "claude-code%") "p")).n :=
  ⟨missing_cell_yields_none.1 [] cell1_key cell3_key cell5_key cell7_key (Or.inl rfl),
   missing_cell_yields_none.2.1 sqrtZero dbConstant ["r1"] "claude-code%" "p" _
     (List.Mem.head _)⟩

/-- C5: with the store file absent, query_cell_means returns the empty
mapping without opening anything and without raising; a filter matching zero
records yields the empty mapping from the query; and figure4 treats that
empty mapping as missing, resolving to the fallback rather than raising a
key error. -/
theorem absent_store_empty_fallback :
    (∀ (sqrtFn : ℚ → ℚ) (fs : FS) (run_ids : List String) (jf : String),
       fs.dbFile = none →
       query_cell_means sqrtFn fs g0 run_ids jf = (([] : List (String × CellVal)), g0)) ∧
    (∀ (sqrtFn : ℚ → ℚ) (db : DB) (run_ids : List String) (jf : String),
       (∀ r ∈ (db : List EvalRecord), matchesFilter run_ids jf r = false) →
       runQuery sqrtFn db run_ids jf = []) ∧
    (figure4_resolve sqrtZero fsNoMatch g0).map (fun p => p.1)
      = Except.ok Fig4Data.fallback := by
  refine ⟨?_, ?_, rfl⟩
  · intro sqrtFn fs run_ids jf h
    simp [query_cell_means, get_db, g0, h]
  · intro sqrtFn db run_ids jf h
    have hnil : filteredRecords db run_ids jf = [] := by
      simp only [filteredRecords]
      rw [List.filter_eq_nil_iff]
      intro r hr
      simp [h r hr]
    simp [runQuery, hnil, profileKeys, groupScores]

/-- Witness for C5: the absent store and the no-match filter of the concrete
fixtures produce empty mappings. -/
theorem absent_store_empty_fallback_witness :
    query_cell_means sqrtZero fsEmpty g0 ["r1"] "claude-code%"
        = (([] : List (String × CellVal)), g0) ∧
    runQuery sqrtZero dbThreeCells ["r1"] "nope%" = [] :=
  ⟨absent_store_empty_fallback.1 sqrtZero fsEmpty ["r1"] "claude-code%" rfl,
   absent_store_empty_fallback.2.1 sqrtZero dbThreeCells ["r1"] "nope%" (by decide)⟩

/-- Helper for the amended C3: under a well-formed figure4 entry the model
loop can break to the fallback or complete, but never raises. -/
theorem fig4_loop_ok (sqrtFn : ℚ → ℚ) (db : DB) (cfg : J) (hwf : fig4RunsWF cfg) :
    ∀ ks : List String, (∀ k ∈ ks, k ∈ fig4_keys) →
      isOkE (fig4_loop sqrtFn db cfg ks) = true := by
  obtain ⟨⟨jfJ, jfs, hjf, hjfs⟩, runsJ, hruns, hkeys⟩ := hwf
  intro ks
  induction ks with
  | nil => intro _; rfl
  | cons k ks ih =>
    intro hmem
    obtain ⟨cfgk, idsJ, ids, lJ, l, hck, hids, hidss, hl, hls⟩ :=
      hkeys k (hmem k (List.mem_cons_self k ks))
    simp only [fig4_loop, hruns, hck, hids, hidss, hjf, hjfs]
    split
    · rfl
    · split
      · rfl
      · simp only [hl, hls]
        have hih := ih (fun k2 hk2 => hmem k2 (List.mem_cons_of_mem k hk2))
        cases hrec : fig4_loop sqrtFn db cfg ks with
        | error e => rw [hrec] at hih; simp [isOkE] at hih
        | ok r => cases r <;> rfl

/-- C3 (amended): on every state whose manifest file is absent, parses to a
falsy value, or carries a well-formed figure4 entry, the resolver never
raises, and with the store absent it returns exactly the fallback bundle;
the unamended claim fails because a present, truthy manifest that lacks the
expected keys raises a KeyError (see the counterexample). -/
theorem resolver_total_amended (sqrtFn : ℚ → ℚ) (fs : FS) (hwf : manifest4WF fs) :
    isOkE (figure4_resolve sqrtFn fs g0) = true ∧
    (fs.dbFile = none →
      figure4_resolve sqrtFn fs g0
        = Except.ok (Fig4Data.fallback, (get_manifest fs g0).2)) := by
  rcases hwf with hnone | ⟨j, hj, hcase⟩
  · refine ⟨?_, fun hdb => ?_⟩ <;>
      simp [figure4_resolve, fig_config_of, get_manifest, g0, hnone, isOkE]
  · cases hjt : j.truthy with
    | false =>
      refine ⟨?_, fun hdb => ?_⟩ <;>
        simp [figure4_resolve, fig_config_of, get_manifest, g0, hj, hjt, isOkE]
    | true =>
      have hchain : ∃ fJ cfg, jget j "figures" = Except.ok fJ ∧
          jget fJ "figure4" = Except.ok cfg ∧
          (cfg.truthy = false ∨ fig4RunsWF cfg) := by
        rcases hcase with hf | h
        · rw [hf] at hjt; cases hjt
        · exact h
      obtain ⟨fJ, cfg, hfig, hfig4, hcfg⟩ := hchain
      cases hct : cfg.truthy with
      | false =>
        refine ⟨?_, fun hdb => ?_⟩ <;>
          simp [figure4_resolve, fig_config_of, get_manifest, g0, hj, hjt,
            hfig, hfig4, hct, isOkE]
      | true =>
        have hwf4 : fig4RunsWF cfg := by
          rcases hcfg with hc | h
          · rw [hc] at hct; cases hct
          · exact h
        cases hdbf : fs.dbFile with
        | none =>
          refine ⟨?_, fun hdb => ?_⟩ <;>
            simp [figure4_resolve, fig_config_of, get_manifest, get_db, g0,
              hj, hjt, hfig, hfig4, hct, hdbf, isOkE]
        | some d =>
          refine ⟨?_, fun hdb => ?_⟩
          · have hloop := fig4_loop_ok sqrtFn d cfg hwf4 fig4_keys (fun k hk => hk)
            cases hrec : fig4_loop sqrtFn d cfg fig4_keys with
            | error e => rw [hrec] at hloop; simp [isOkE] at hloop
            | ok r =>
              cases r <;>
                simp [figure4_resolve, fig_config_of, get_manifest, get_db, g0,
                  hj, hjt, hfig, hfig4, hct, hdbf, hrec, isOkE]
          · exact Option.noConfusion hdb

/-- Counterexample to C3 as stated: with a present, truthy manifest that
lacks the figures key, the figure4 resolver raises KeyError instead of
returning the fallback. -/
theorem resolver_keyerror_counterexample :
    figure4_resolve sqrtZero fsBad g0 = Except.error (PyErr.keyError "figures") := rfl

/-- Witness for the amended C3: with both files absent, figure4 resolves,
without raising, to the fallback bundle. -/
theorem resolver_total_witness :
    isOkE (figure4_resolve sqrtZero fsEmpty g0) = true ∧
    (fsEmpty.dbFile = none →
      figure4_resolve sqrtZero fsEmpty g0
        = Except.ok (Fig4Data.fallback, (get_manifest fsEmpty g0).2)) :=
  resolver_total_amended sqrtZero fsEmpty (Or.inl rfl)

/-- C7 (amended): a record whose suggestions payload fails to parse is given
its raw payload string as text (and so contributes its words, not nothing);
only a NULL payload contributes empty text; and the row loop processes the
records independently, so the remaining records are still processed. -/
theorem malformed_payload_raw_text (loads : String → Except Unit J) (s : String)
    (xs ys : List (String × Option String)) (h : loads s = Except.error ()) :
    rowText loads (some s) = s ∧ rowText loads none = "" ∧
    collectTexts loads (xs ++ ys)
      = ((collectTexts loads xs).1 ++ (collectTexts loads ys).1,
         (collectTexts loads xs).2 ++ (collectTexts loads ys).2) := by
  refine ⟨?_, rfl, ?_⟩
  · simp only [rowText, h]
    split_ifs with hs
    · rfl
    · push_neg at hs
      exact hs.symm
  · induction xs with
    | nil => simp [collectTexts]
    | cons p rest ih =>
      obtain ⟨profile, raw⟩ := p
      by_cases hi : inStr "recog" profile <;>
        simp [collectTexts, hi, ih]

/-- Counterexample to C7 as stated: a base-condition record whose payload is
the unparseable text zebra zebra is not treated as empty text; it
contributes the word zebra twice to the aggregate. -/
theorem malformed_payload_counterexample :
    (collectTexts loadsNone rowsMalformed).1 = ["zebra zebra"] ∧
    text_to_freq (String.intercalate " " (collectTexts loadsNone rowsMalformed).1)
      = [("zebra", 2)] := ⟨rfl, rfl⟩

/-- Witness for the amended C7 at the concrete malformed row. -/
theorem malformed_payload_witness :
    rowText loadsNone (some "zebra zebra") = "zebra zebra" ∧
    rowText loadsNone none = "" ∧
    collectTexts loadsNone (rowsMalformed ++ [])
      = ((collectTexts loadsNone rowsMalformed).1 ++ (collectTexts loadsNone []).1,
         (collectTexts loadsNone rowsMalformed).2 ++ (collectTexts loadsNone []).2) :=
  malformed_payload_raw_text loadsNone "zebra zebra" rowsMalformed [] rfl

/-- C8 (amended): a call to get_db while the shared handle is open returns
that same handle with no new open event, and in the representative run the
trace is open shared, open the private figure6 connection, close it, close
shared at the end: the shared handle opens and closes exactly once, but the
at-most-one-connection reading fails (see the counterexample) because
figure6 opens its own connection. -/
theorem shared_handle_reuse_amended :
    (∀ (fs : FS) (g : GState) (d : DB), g.dbCache = some d → get_db fs g = (some d, g)) ∧
    (main_model sqrtZero loadsNone true fsTwoConn).map (fun p => p.2.log)
      = Except.ok [CEvent.openShared, CEvent.openLocal, CEvent.closeLocal,
          CEvent.closeShared] := by
  refine ⟨?_, rfl⟩
  intro fs g d h
  unfold get_db
  rw [h]

/-- Counterexample to C8 as stated: after the first two events of the
representative trace, two connections are open and none has been closed. -/
theorem two_connections_counterexample :
    (main_model sqrtZero loadsNone true fsTwoConn).map
        (fun p => (openCount (p.2.log.take 2), closeCount (p.2.log.take 2)))
      = Except.ok (2, 0) := rfl

/-- Witness for the amended C8: a get_db call on a state whose shared handle
is already open returns the cached handle unchanged. -/
theorem shared_handle_reuse_witness :
    get_db fsEmpty { manifestCache := none, dbCache := some dbConstant, log := [] }
      = (some dbConstant, { manifestCache := none, dbCache := some dbConstant, log := [] }) :=
  shared_handle_reuse_amended.1 fsEmpty _ dbConstant rfl

/-- C9: whenever the run completes with the word-cloud library missing,
figure6 is reported as skipped with the pip install notice, no image is
recorded for it, and figures 7, 8 and 9 are still generated. -/
theorem wordcloud_skip_continues (sqrtFn : ℚ → ℚ) (loads : String → Except Unit J)
    (fs : FS) (outs : List (String × FigOut)) (gEnd : GState)
    (h : main_model sqrtFn loads false fs = Except.ok (outs, gEnd)) :
    outs.lookup "figure6" = some (FigOut.skipped "pip install wordcloud") ∧
    outs.lookup "figure7" = some FigOut.written ∧
    outs.lookup "figure8" = some FigOut.written ∧
    outs.lookup "figure9" = some FigOut.written := by
  unfold main_model at h
  simp only [figure6_model, Bool.not_false, if_true] at h
  split at h
  · exact Except.noConfusion h
  · split at h
    · exact Except.noConfusion h
    · split at h
      · exact Except.noConfusion h
      · split at h
        · exact Except.noConfusion h
        · rw [Except.ok.injEq, Prod.mk.injEq] at h
          obtain ⟨h1, h2⟩ := h
          subst h1
          exact ⟨rfl, rfl, rfl, rfl⟩

/-- Witness for C9: the all-fallback run with the library missing completes,
skipping figure6 and writing the rest. -/
theorem wordcloud_skip_witness :
    List.lookup "figure6"
        [("figure1", FigOut.written), ("figure2", FigOut.written),
         ("figure3", FigOut.written), ("figure4", FigOut.written),
         ("figure5", FigOut.written),
         ("figure6", FigOut.skipped "pip install wordcloud"),
         ("figure7", FigOut.written), ("figure8", FigOut.written),
         ("figure9", FigOut.written)]
      = some (FigOut.skipped "pip install wordcloud") ∧
    List.lookup "figure7"
        [("figure1", FigOut.written), ("figure2", FigOut.written),
         ("figure3", FigOut.written), ("figure4", FigOut.written),
         ("figure5", FigOut.written),
         ("figure6", FigOut.skipped "pip install wordcloud"),
         ("figure7", FigOut.written), ("figure8", FigOut.written),
         ("figure9", FigOut.written)]
      = some FigOut.written ∧
    List.lookup "figure8"
        [("figure1", FigOut.written), ("figure2", FigOut.written),
         ("figure3", FigOut.written), ("figure4", FigOut.written),
         ("figure5", FigOut.written),
         ("figure6", FigOut.skipped "pip install wordcloud"),
         ("figure7", FigOut.written), ("figure8", FigOut.written),
         ("figure9", FigOut.written)]
      = some FigOut.written ∧
    List.lookup "figure9"
        [("figure1", FigOut.written), ("figure2", FigOut.written),
         ("figure3", FigOut.written), ("figure4", FigOut.written),
         ("figure5", FigOut.written),
         ("figure6", FigOut.skipped "pip install wordcloud"),
         ("figure7", FigOut.written), ("figure8", FigOut.written),
         ("figure9", FigOut.written)]
      = some FigOut.written :=
  wordcloud_skip_continues sqrtZero loadsNone fsEmpty _ _ rfl

/-- C6: resolution is deterministic and idempotent: with the store and
manifest files fixed, running the query-then-effects resolution a second
time from the state the first run left behind returns the identical bundle
and the identical state, bit for bit. -/
theorem resolution_deterministic (sqrtFn : ℚ → ℚ) (fs : FS)
    (run_ids : List String) (jf : String) :
    resolution sqrtFn fs (resolution sqrtFn fs g0 run_ids jf).2 run_ids jf
      = resolution sqrtFn fs g0 run_ids jf := by
  cases h : fs.dbFile <;>
    simp [resolution, query_cell_means, get_db, g0, h]

end PaperFigs


